import Mathlib

/-!
# Binding registry of `src/main/cpp/index.cpp`

`index.cpp` consists of one `EMSCRIPTEN_BINDINGS(module)` block.  Its body is a
sequence of statements of the shape

    emscripten::function("<name>", &<bridge>::<ident>);

some of which are disabled by a leading `//`.  The block is embedded as the list
of those statements in source order; the live registry is what remains once the
disabled statements are dropped, exactly as the compiler sees the block.
-/

namespace MoneroWasm

/-- The two bridge namespaces whose functions `index.cpp` refers to. -/
inductive Bridge where
  | monero_utils_wasm_bridge
  | monero_wallet_wasm_bridge
  deriving DecidableEq, Repr

/-- The callee expression given as second argument of `emscripten::function`.
`addressOf ns f` is the C++ expression `&ns::f`, the address of a bridge
function; every statement of `index.cpp` has this form. -/
inductive Callee where
  | addressOf (ns : Bridge) (ident : String)
  deriving DecidableEq, Repr

/-- The namespace qualifying the function whose address is taken. -/
def Callee.bridge : Callee → Bridge
  | .addressOf ns _ => ns

/-- The unqualified identifier of the function whose address is taken. -/
def Callee.ident : Callee → String
  | .addressOf _ f => f

/-- One call `emscripten::function(name, callee)`. -/
structure Registration where
  name : String
  callee : Callee
  deriving DecidableEq, Repr

/-- A statement of the block: compiled (`active`) or disabled by `//` (`commented`). -/
inductive Stmt where
  | active (r : Registration)
  | commented (r : Registration)
  deriving DecidableEq, Repr

/-- The body of `EMSCRIPTEN_BINDINGS(module)`, lines 12 to 107 of `index.cpp`,
one entry per `emscripten::function` statement, in source order. -/
def EMSCRIPTEN_BINDINGS_module : List Stmt := [
  Stmt.active (Registration.mk "utils_dummy_method" (Callee.addressOf Bridge.monero_utils_wasm_bridge "utils_dummy_method")),
  Stmt.active (Registration.mk "malloc_binary_from_json" (Callee.addressOf Bridge.monero_utils_wasm_bridge "malloc_binary_from_json")),
  Stmt.active (Registration.mk "binary_to_json" (Callee.addressOf Bridge.monero_utils_wasm_bridge "binary_to_json")),
  Stmt.active (Registration.mk "binary_blocks_to_json" (Callee.addressOf Bridge.monero_utils_wasm_bridge "binary_blocks_to_json")),
  Stmt.active (Registration.mk "create_wallet_dummy" (Callee.addressOf Bridge.monero_wallet_wasm_bridge "create_wallet_dummy")),
  Stmt.active (Registration.mk "dummy_method" (Callee.addressOf Bridge.monero_wallet_wasm_bridge "dummy_method")),
  Stmt.active (Registration.mk "create_wallet_random" (Callee.addressOf Bridge.monero_wallet_wasm_bridge "create_wallet_random")),
  Stmt.active (Registration.mk "create_wallet_from_mnemonic" (Callee.addressOf Bridge.monero_wallet_wasm_bridge "create_wallet_from_mnemonic")),
  Stmt.active (Registration.mk "get_seed" (Callee.addressOf Bridge.monero_wallet_wasm_bridge "get_seed")),
  Stmt.active (Registration.mk "get_mnemonic" (Callee.addressOf Bridge.monero_wallet_wasm_bridge "get_mnemonic")),
  Stmt.active (Registration.mk "get_language" (Callee.addressOf Bridge.monero_wallet_wasm_bridge "get_language")),
  Stmt.active (Registration.mk "get_languages" (Callee.addressOf Bridge.monero_wallet_wasm_bridge "get_languages")),
  Stmt.active (Registration.mk "get_public_view_key" (Callee.addressOf Bridge.monero_wallet_wasm_bridge "get_public_view_key")),
  Stmt.active (Registration.mk "get_private_view_key" (Callee.addressOf Bridge.monero_wallet_wasm_bridge "get_private_view_key")),
  Stmt.active (Registration.mk "get_public_spend_key" (Callee.addressOf Bridge.monero_wallet_wasm_bridge "get_public_spend_key")),
  Stmt.active (Registration.mk "get_private_spend_key" (Callee.addressOf Bridge.monero_wallet_wasm_bridge "get_private_spend_key")),
  Stmt.active (Registration.mk "get_address" (Callee.addressOf Bridge.monero_wallet_wasm_bridge "get_address")),
  Stmt.active (Registration.mk "get_address_index" (Callee.addressOf Bridge.monero_wallet_wasm_bridge "get_address_index")),
  Stmt.active (Registration.mk "get_integrated_address" (Callee.addressOf Bridge.monero_wallet_wasm_bridge "get_integrated_address")),
  Stmt.active (Registration.mk "decode_integrated_address" (Callee.addressOf Bridge.monero_wallet_wasm_bridge "decode_integrated_address")),
  Stmt.active (Registration.mk "get_height" (Callee.addressOf Bridge.monero_wallet_wasm_bridge "get_height")),
  Stmt.active (Registration.mk "sync" (Callee.addressOf Bridge.monero_wallet_wasm_bridge "sync")),
  Stmt.commented (Registration.mk "start_syncing" (Callee.addressOf Bridge.monero_wallet_wasm_bridge "start_syncing")),
  Stmt.commented (Registration.mk "rescan_spent" (Callee.addressOf Bridge.monero_wallet_wasm_bridge "rescan_spent")),
  Stmt.commented (Registration.mk "rescan_blockchain" (Callee.addressOf Bridge.monero_wallet_wasm_bridge "rescan_blockchain")),
  Stmt.active (Registration.mk "get_balance_wallet" (Callee.addressOf Bridge.monero_wallet_wasm_bridge "get_balance_wallet")),
  Stmt.active (Registration.mk "get_balance_account" (Callee.addressOf Bridge.monero_wallet_wasm_bridge "get_balance_account")),
  Stmt.active (Registration.mk "get_balance_subaddress" (Callee.addressOf Bridge.monero_wallet_wasm_bridge "get_balance_subaddress")),
  Stmt.active (Registration.mk "get_unlocked_balance_wallet" (Callee.addressOf Bridge.monero_wallet_wasm_bridge "get_unlocked_balance_wallet")),
  Stmt.active (Registration.mk "get_unlocked_balance_account" (Callee.addressOf Bridge.monero_wallet_wasm_bridge "get_unlocked_balance_account")),
  Stmt.active (Registration.mk "get_unlocked_balance_subaddress" (Callee.addressOf Bridge.monero_wallet_wasm_bridge "get_unlocked_balance_subaddress")),
  Stmt.active (Registration.mk "get_accounts" (Callee.addressOf Bridge.monero_wallet_wasm_bridge "get_accounts")),
  Stmt.active (Registration.mk "get_account" (Callee.addressOf Bridge.monero_wallet_wasm_bridge "get_account")),
  Stmt.commented (Registration.mk "create_account" (Callee.addressOf Bridge.monero_wallet_wasm_bridge "create_account")),
  Stmt.active (Registration.mk "get_subaddresses" (Callee.addressOf Bridge.monero_wallet_wasm_bridge "get_subaddresses")),
  Stmt.commented (Registration.mk "create_subaddress" (Callee.addressOf Bridge.monero_wallet_wasm_bridge "create_subaddress")),
  Stmt.commented (Registration.mk "get_txs" (Callee.addressOf Bridge.monero_wallet_wasm_bridge "get_txs")),
  Stmt.commented (Registration.mk "get_transfers" (Callee.addressOf Bridge.monero_wallet_wasm_bridge "get_transfers")),
  Stmt.commented (Registration.mk "get_incoming_transfers" (Callee.addressOf Bridge.monero_wallet_wasm_bridge "get_incoming_transfers")),
  Stmt.commented (Registration.mk "get_outgoing_transfers" (Callee.addressOf Bridge.monero_wallet_wasm_bridge "get_outgoing_transfers")),
  Stmt.commented (Registration.mk "get_outputs" (Callee.addressOf Bridge.monero_wallet_wasm_bridge "get_outputs")),
  Stmt.commented (Registration.mk "get_outputs_hex" (Callee.addressOf Bridge.monero_wallet_wasm_bridge "get_outputs_hex")),
  Stmt.commented (Registration.mk "import_outputs_hex" (Callee.addressOf Bridge.monero_wallet_wasm_bridge "import_outputs_hex")),
  Stmt.commented (Registration.mk "get_key_images" (Callee.addressOf Bridge.monero_wallet_wasm_bridge "get_key_images")),
  Stmt.commented (Registration.mk "import_key_images" (Callee.addressOf Bridge.monero_wallet_wasm_bridge "import_key_images")),
  Stmt.commented (Registration.mk "get_new_key_images_from_last_import" (Callee.addressOf Bridge.monero_wallet_wasm_bridge "get_new_key_images_from_last_import")),
  Stmt.commented (Registration.mk "relay_txs" (Callee.addressOf Bridge.monero_wallet_wasm_bridge "relay_txs")),
  Stmt.commented (Registration.mk "send_split" (Callee.addressOf Bridge.monero_wallet_wasm_bridge "send_split")),
  Stmt.commented (Registration.mk "sweep_output" (Callee.addressOf Bridge.monero_wallet_wasm_bridge "sweep_output")),
  Stmt.commented (Registration.mk "sweep_unlocked" (Callee.addressOf Bridge.monero_wallet_wasm_bridge "sweep_unlocked")),
  Stmt.commented (Registration.mk "sweep_dust" (Callee.addressOf Bridge.monero_wallet_wasm_bridge "sweep_dust")),
  Stmt.commented (Registration.mk "sign" (Callee.addressOf Bridge.monero_wallet_wasm_bridge "sign")),
  Stmt.commented (Registration.mk "verify" (Callee.addressOf Bridge.monero_wallet_wasm_bridge "verify")),
  Stmt.commented (Registration.mk "get_tx_key" (Callee.addressOf Bridge.monero_wallet_wasm_bridge "get_tx_key")),
  Stmt.commented (Registration.mk "check_tx_key" (Callee.addressOf Bridge.monero_wallet_wasm_bridge "check_tx_key")),
  Stmt.commented (Registration.mk "get_tx_proof" (Callee.addressOf Bridge.monero_wallet_wasm_bridge "get_tx_proof")),
  Stmt.commented (Registration.mk "check_tx_proof" (Callee.addressOf Bridge.monero_wallet_wasm_bridge "check_tx_proof")),
  Stmt.commented (Registration.mk "get_spend_proof" (Callee.addressOf Bridge.monero_wallet_wasm_bridge "get_spend_proof")),
  Stmt.commented (Registration.mk "check_spend_proof" (Callee.addressOf Bridge.monero_wallet_wasm_bridge "check_spend_proof")),
  Stmt.commented (Registration.mk "get_reserve_proof_wallet" (Callee.addressOf Bridge.monero_wallet_wasm_bridge "get_reserve_proof_wallet")),
  Stmt.commented (Registration.mk "get_reserve_proof_account" (Callee.addressOf Bridge.monero_wallet_wasm_bridge "get_reserve_proof_account")),
  Stmt.commented (Registration.mk "check_reserve_proof" (Callee.addressOf Bridge.monero_wallet_wasm_bridge "check_reserve_proof")),
  Stmt.commented (Registration.mk "get_tx_notes" (Callee.addressOf Bridge.monero_wallet_wasm_bridge "get_tx_notes")),
  Stmt.commented (Registration.mk "set_tx_notes" (Callee.addressOf Bridge.monero_wallet_wasm_bridge "set_tx_notes")),
  Stmt.commented (Registration.mk "get_address_book_entries" (Callee.addressOf Bridge.monero_wallet_wasm_bridge "get_address_book_entries")),
  Stmt.commented (Registration.mk "add_address_book_entry" (Callee.addressOf Bridge.monero_wallet_wasm_bridge "add_address_book_entry")),
  Stmt.commented (Registration.mk "delete_address_book_entry" (Callee.addressOf Bridge.monero_wallet_wasm_bridge "delete_address_book_entry")),
  Stmt.commented (Registration.mk "tag_accounts" (Callee.addressOf Bridge.monero_wallet_wasm_bridge "tag_accounts")),
  Stmt.commented (Registration.mk "untag_accounts" (Callee.addressOf Bridge.monero_wallet_wasm_bridge "untag_accounts")),
  Stmt.commented (Registration.mk "get_account_tags" (Callee.addressOf Bridge.monero_wallet_wasm_bridge "get_account_tags")),
  Stmt.commented (Registration.mk "set_account_tag_label" (Callee.addressOf Bridge.monero_wallet_wasm_bridge "set_account_tag_label")),
  Stmt.commented (Registration.mk "create_payment_uri" (Callee.addressOf Bridge.monero_wallet_wasm_bridge "create_payment_uri")),
  Stmt.commented (Registration.mk "parse_payment_uri" (Callee.addressOf Bridge.monero_wallet_wasm_bridge "parse_payment_uri")),
  Stmt.commented (Registration.mk "get_attribute" (Callee.addressOf Bridge.monero_wallet_wasm_bridge "get_attribute")),
  Stmt.active (Registration.mk "set_attribute" (Callee.addressOf Bridge.monero_wallet_wasm_bridge "set_attribute")),
  Stmt.commented (Registration.mk "start_mining" (Callee.addressOf Bridge.monero_wallet_wasm_bridge "start_mining")),
  Stmt.commented (Registration.mk "stop_mining" (Callee.addressOf Bridge.monero_wallet_wasm_bridge "stop_mining")),
  Stmt.commented (Registration.mk "is_multisig_import_needed" (Callee.addressOf Bridge.monero_wallet_wasm_bridge "is_multisig_import_needed")),
  Stmt.commented (Registration.mk "is_multisig" (Callee.addressOf Bridge.monero_wallet_wasm_bridge "is_multisig")),
  Stmt.commented (Registration.mk "get_multisig_info" (Callee.addressOf Bridge.monero_wallet_wasm_bridge "get_multisig_info")),
  Stmt.commented (Registration.mk "prepare_multisig" (Callee.addressOf Bridge.monero_wallet_wasm_bridge "prepare_multisig")),
  Stmt.commented (Registration.mk "make_multisig" (Callee.addressOf Bridge.monero_wallet_wasm_bridge "make_multisig")),
  Stmt.commented (Registration.mk "exchange_multisig_keys" (Callee.addressOf Bridge.monero_wallet_wasm_bridge "exchange_multisig_keys")),
  Stmt.commented (Registration.mk "get_multisig_hex" (Callee.addressOf Bridge.monero_wallet_wasm_bridge "get_multisig_hex")),
  Stmt.commented (Registration.mk "import_multisig_hex" (Callee.addressOf Bridge.monero_wallet_wasm_bridge "import_multisig_hex")),
  Stmt.commented (Registration.mk "sign_multisig_tx_hex" (Callee.addressOf Bridge.monero_wallet_wasm_bridge "sign_multisig_tx_hex")),
  Stmt.commented (Registration.mk "submit_multisig_tx_hex" (Callee.addressOf Bridge.monero_wallet_wasm_bridge "submit_multisig_tx_hex")),
  Stmt.commented (Registration.mk "save" (Callee.addressOf Bridge.monero_wallet_wasm_bridge "save")),
  Stmt.commented (Registration.mk "close" (Callee.addressOf Bridge.monero_wallet_wasm_bridge "close")),
  Stmt.active (Registration.mk "get_address_file_data" (Callee.addressOf Bridge.monero_wallet_wasm_bridge "get_address_file_data")),
  Stmt.active (Registration.mk "get_keys_file_data" (Callee.addressOf Bridge.monero_wallet_wasm_bridge "get_keys_file_data")),
  Stmt.active (Registration.mk "get_cache_file_data" (Callee.addressOf Bridge.monero_wallet_wasm_bridge "get_cache_file_data")),
  Stmt.active (Registration.mk "load_wallet_data" (Callee.addressOf Bridge.monero_wallet_wasm_bridge "load_wallet_data"))
]

/-- The registration a statement performs when compiled, if it is not commented out. -/
def Stmt.live? : Stmt → Option Registration
  | .active r => some r
  | .commented _ => none

/-- The registration a commented-out statement would have performed. -/
def Stmt.disabled? : Stmt → Option Registration
  | .active _ => none
  | .commented r => some r

/-- The live registry: the registrations executed when the block runs. -/
def registry : List Registration :=
  EMSCRIPTEN_BINDINGS_module.filterMap Stmt.live?

/-- The registrations present only as commented-out statements. -/
def disabled : List Registration :=
  EMSCRIPTEN_BINDINGS_module.filterMap Stmt.disabled?

/-- External names of the live registry. -/
def liveNames : List String := registry.map Registration.name

/-- External names of the commented-out registrations. -/
def disabledNames : List String := disabled.map Registration.name

/-- Host-side lookup of an external name.  The lookup itself is performed by the
binding library on the table the block filled, not by `index.cpp`; it is taken
here as the first live registration carrying the name, and `none` is the
unknown-name outcome. -/
def lookup (n : String) : Option Registration :=
  registry.find? (fun r => r.name == n)

/-- The live registrations carrying a given external name. -/
def entriesNamed (n : String) : List Registration :=
  registry.filter (fun r => r.name == n)

/-! ## Helper lemmas -/

theorem lookup_eq_none_iff (n : String) : lookup n = none ↔ n ∉ liveNames := by
  simp [lookup, liveNames, List.find?_eq_none]

/-! ## Settled claims -/

/-- C1: every name that occurs only in a commented-out registration (57 names,
from `start_syncing` to `close`) is unknown to the live registry: looking it up
yields `none`, it is not a live name, and the disabled and live name sets are
disjoint. -/
theorem disabled_names_not_registered :
    disabledNames.length = 57 ∧
    disabledNames.take 6 = ["start_syncing", "rescan_spent", "rescan_blockchain",
      "create_account", "create_subaddress", "get_txs"] ∧
    disabledNames.drop 54 = ["submit_multisig_tx_hex", "save", "close"] ∧
    (∀ n ∈ disabledNames, lookup n = none ∧ n ∉ liveNames) ∧
    List.Disjoint disabledNames liveNames := by
  have hn : ∀ n ∈ disabledNames, n ∉ liveNames := by decide
  have h : ∀ n ∈ disabledNames, lookup n = none ∧ n ∉ liveNames :=
    fun n hmem => ⟨(lookup_eq_none_iff n).mpr (hn n hmem), hn n hmem⟩
  refine ⟨by decide, by decide, by decide, h, ?_⟩
  intro a ha hb
  exact (h a ha).2 hb

/-- C2: external names are unique in the live registry: the list of live names
has no duplicate, and for every live registration the registrations carrying its
name are that registration alone, which is also what lookup returns. -/
theorem registry_names_unique :
    liveNames.Nodup ∧
    (∀ r ∈ registry, entriesNamed r.name = [r] ∧ lookup r.name = some r) := by
  exact ⟨by decide, by decide⟩

/-- C4: the construction and persistence surface is live: the two creation
entries, `load_wallet_data`, and the three file-data producers are each
registered and bound to the wallet bridge function of the same name. -/
theorem construction_and_persistence_live (n : String)
    (h : n ∈ ["create_wallet_random", "create_wallet_from_mnemonic", "load_wallet_data",
      "get_address_file_data", "get_keys_file_data", "get_cache_file_data"]) :
    lookup n = some (Registration.mk n
      (Callee.addressOf Bridge.monero_wallet_wasm_bridge n)) := by
  revert n
  decide

theorem construction_and_persistence_live_witness :
    lookup "get_keys_file_data" = some (Registration.mk "get_keys_file_data"
      (Callee.addressOf Bridge.monero_wallet_wasm_bridge "get_keys_file_data")) :=
  construction_and_persistence_live "get_keys_file_data" (by decide)

/-- C5: each of the eleven key/identity accessors named by the specification is
a live entry of the registry (bound to the wallet bridge function of its name). -/
theorem key_identity_accessors_live (n : String)
    (h : n ∈ ["get_mnemonic", "get_seed", "get_languages", "get_public_view_key",
      "get_private_view_key", "get_public_spend_key", "get_private_spend_key",
      "get_address", "get_address_index", "get_integrated_address",
      "decode_integrated_address"]) :
    n ∈ liveNames ∧ lookup n = some (Registration.mk n
      (Callee.addressOf Bridge.monero_wallet_wasm_bridge n)) := by
  revert n
  decide

theorem key_identity_accessors_live_witness :
    "decode_integrated_address" ∈ liveNames ∧
    lookup "decode_integrated_address" = some (Registration.mk "decode_integrated_address"
      (Callee.addressOf Bridge.monero_wallet_wasm_bridge "decode_integrated_address")) :=
  key_identity_accessors_live "decode_integrated_address" (by decide)

/-- C6: for each kind in balance, unlocked_balance and each granularity in
wallet, account, subaddress the name `get_<kind>_<granularity>` is registered,
and so are `get_height`, `get_accounts` and `get_subaddresses`. -/
theorem state_queries_live :
    (∀ kind ∈ ["balance", "unlocked_balance"], ∀ g ∈ ["wallet", "account", "subaddress"],
      ("get_" ++ kind ++ "_" ++ g) ∈ liveNames ∧
      (lookup ("get_" ++ kind ++ "_" ++ g)).isSome = true) ∧
    (∀ n ∈ ["get_height", "get_accounts", "get_subaddresses"],
      n ∈ liveNames ∧ (lookup n).isSome = true) := by
  exact ⟨by decide, by decide⟩

/-- C7: `sync` and `set_attribute` are live and bound to
`monero_wallet_wasm_bridge::sync` and `monero_wallet_wasm_bridge::set_attribute`. -/
theorem mutation_operations_live :
    lookup "sync" = some (Registration.mk "sync"
      (Callee.addressOf Bridge.monero_wallet_wasm_bridge "sync")) ∧
    lookup "set_attribute" = some (Registration.mk "set_attribute"
      (Callee.addressOf Bridge.monero_wallet_wasm_bridge "set_attribute")) := by
  exact ⟨by decide, by decide⟩

/-- C8, as stated, fails: the create/load entries are live but `close` is not a
live name; its lookup gives the unknown-name outcome. -/
theorem close_not_live :
    lookup "close" = none ∧
    ¬ ((∀ n ∈ ["create_wallet_random", "create_wallet_from_mnemonic", "load_wallet_data"],
        n ∈ liveNames) ∧ "close" ∈ liveNames) := by
  exact ⟨by decide, by decide⟩

/-- C8, amended: the create/load entries `create_wallet_random`,
`create_wallet_from_mnemonic` and `load_wallet_data` are live, while `close`
occurs in the block only as a commented-out statement and is therefore absent
from the live registry. -/
theorem create_load_live_close_disabled :
    (∀ n ∈ ["create_wallet_random", "create_wallet_from_mnemonic", "load_wallet_data"],
      n ∈ liveNames ∧ (lookup n).isSome = true) ∧
    Stmt.commented (Registration.mk "close"
      (Callee.addressOf Bridge.monero_wallet_wasm_bridge "close"))
      ∈ EMSCRIPTEN_BINDINGS_module ∧
    "close" ∈ disabledNames ∧ "close" ∉ liveNames ∧ lookup "close" = none := by
  exact ⟨by decide, by decide, by decide, by decide, by decide⟩

/-- C9: for every live registration the external name equals the unqualified
identifier of the native function it is bound to. -/
theorem name_eq_native_ident (r : Registration) (h : r ∈ registry) :
    r.name = r.callee.ident := by
  revert r
  decide

theorem name_eq_native_ident_witness :
    Registration.mk "get_seed" (Callee.addressOf Bridge.monero_wallet_wasm_bridge "get_seed")
      ∈ registry ∧
    "get_seed" = (Callee.addressOf Bridge.monero_wallet_wasm_bridge "get_seed").ident :=
  ⟨by decide,
   name_eq_native_ident
     (Registration.mk "get_seed" (Callee.addressOf Bridge.monero_wallet_wasm_bridge "get_seed"))
     (by decide)⟩

/-- C10: the live registry has exactly 36 entries; the first four, named
`utils_dummy_method`, `malloc_binary_from_json`, `binary_to_json` and
`binary_blocks_to_json`, target `monero_utils_wasm_bridge`; the remaining 32 all
target `monero_wallet_wasm_bridge`; and an entry targets the utils bridge exactly
when its name is one of those four. -/
theorem registry_partition_by_bridge :
    registry.length = 36 ∧
    (registry.take 4).map Registration.name = ["utils_dummy_method",
      "malloc_binary_from_json", "binary_to_json", "binary_blocks_to_json"] ∧
    (∀ r ∈ registry.take 4, r.callee.bridge = Bridge.monero_utils_wasm_bridge) ∧
    (registry.drop 4).length = 32 ∧
    (∀ r ∈ registry.drop 4, r.callee.bridge = Bridge.monero_wallet_wasm_bridge) ∧
    (∀ r ∈ registry, r.callee.bridge = Bridge.monero_utils_wasm_bridge ↔
      r.name ∈ ["utils_dummy_method", "malloc_binary_from_json", "binary_to_json",
        "binary_blocks_to_json"]) := by
  exact ⟨by decide, by decide, by decide, by decide, by decide, by decide⟩

end MoneroWasm
